/-
  Verification of the core engines of the ai-room-temp repository:
  the TemperatureManager aggregator (frontend temperature-manager script)
  and the AudioRecorder chunked-capture scheduler
  (src/frontend/scripts/audio-recorder.js).

  Modelling conventions:
  * JS numbers on the data path are modelled as rationals; `Math.pow` on the
    time weight is modelled as `Real.rpow` on the cast values, and
    `Math.round` as `round : ℝ → ℤ` (both round half up, like JS).
  * `Date.now()` timestamps are integers (milliseconds); every function that
    reads the clock takes the current time `now` as an explicit argument.
  * The update listener (`onTemperatureUpdate`) is modelled by returning the
    record that would be delivered to it.
  * `localStorage` and `console` calls have no effect on the modelled state
    and are dropped.
-/
import Mathlib

namespace TemperatureManager

/-- One stored temperature reading (the object built in `addReading`). -/
structure Reading where
  temperature : ℚ
  confidence : ℚ
  timestamp : ℤ
  source : String
  id : String
deriving DecidableEq

/-- The mutable state of a `TemperatureManager` instance. -/
structure TMState where
  temperatureHistory : List Reading
  currentTemperature : ℚ
  averageTemperature : ℤ
  decayWindowMinutes : ℚ
  sensitivity : ℚ
deriving DecidableEq

/-- The record passed to the `onTemperatureUpdate` listener. -/
structure UpdateEvent where
  current : ℚ
  average : ℤ
  confidence : ℚ
  readingCount : ℕ
deriving DecidableEq

/-- `this.decayWindowMinutes * 60 * 1000`. -/
def decayWindowMs (s : TMState) : ℚ := s.decayWindowMinutes * 60 * 1000

/-- The filter predicate of `_calculateWeightedAverage`:
`reading.temperature > 0 && reading.confidence >= 0.3`. -/
def isValidReading (r : Reading) : Bool :=
  decide (0 < r.temperature ∧ (0.3 : ℚ) ≤ r.confidence)

/-- `validReadings` as computed by `_calculateWeightedAverage`. -/
def validReadings (hist : List Reading) : List Reading :=
  hist.filter isValidReading

/-- The age test used by `_cleanupOldReadings` and `getHistory`:
`(currentTime - reading.timestamp) <= windowMs`. -/
def inWindow (now : ℤ) (windowMs : ℚ) (r : Reading) : Bool :=
  decide (((now - r.timestamp : ℤ) : ℚ) ≤ windowMs)

/-- The per-reading weight of `_calculateWeightedAverage`:
`timeWeight = max(0, 1 - ageMs/decayWindowMs)`,
`sensitivityFactor = timeWeight ^ ((11 - sensitivity)/5)`,
`finalWeight = sensitivityFactor * confidence`. -/
noncomputable def readingWeight (now : ℤ) (dms sens : ℚ) (r : Reading) : ℝ :=
  Real.rpow ((max 0 (1 - ((now - r.timestamp : ℤ) : ℚ) / dms) : ℚ) : ℝ)
      (((11 - sens) / 5 : ℚ) : ℝ) * (r.confidence : ℝ)

/-- The accumulation loop of `_calculateWeightedAverage`: readings whose age
exceeds the decay window are skipped (`continue`), the rest contribute
`temperature * finalWeight` to `weightedSum` and `finalWeight` to
`totalWeight`. -/
noncomputable def loopWeights (now : ℤ) (dms sens : ℚ) :
    List Reading → ℝ × ℝ → ℝ × ℝ
  | [], acc => acc
  | r :: rs, (ws, tw) =>
    if dms < ((now - r.timestamp : ℤ) : ℚ) then
      loopWeights now dms sens rs (ws, tw)
    else
      loopWeights now dms sens rs
        (ws + (r.temperature : ℝ) * readingWeight now dms sens r,
         tw + readingWeight now dms sens r)

/-- The value `_calculateWeightedAverage` leaves in `averageTemperature`:
`prev` when there is no valid reading or the total weight is not positive,
`Math.round(weightedSum / totalWeight)` otherwise. -/
noncomputable def recomputeAverage (now : ℤ) (dms sens : ℚ)
    (hist : List Reading) (prev : ℤ) : ℤ :=
  if (validReadings hist).isEmpty then prev
  else
    if 0 < (loopWeights now dms sens (validReadings hist) (0, 0)).2 then
      round ((loopWeights now dms sens (validReadings hist) (0, 0)).1 /
        (loopWeights now dms sens (validReadings hist) (0, 0)).2)
    else prev

/-- `_calculateWeightedAverage`: only `averageTemperature` is mutated. -/
noncomputable def calcWeightedAverage (now : ℤ) (s : TMState) : TMState :=
  let avg := recomputeAverage now (decayWindowMs s) s.sensitivity
    s.temperatureHistory s.averageTemperature
  { s with averageTemperature := avg }

/-- `_cleanupOldReadings`: drop readings older than the decay window. -/
def cleanupOldReadings (now : ℤ) (s : TMState) : TMState :=
  { s with temperatureHistory :=
      s.temperatureHistory.filter (inWindow now (decayWindowMs s)) }

/-- `addReading(temperature, confidence, source)`.  A low-confidence
low-temperature input is treated as silence: nothing is stored and the
listener is notified with the unchanged values.  Otherwise the clamped
reading is appended, the average recomputed, old readings pruned, and the
listener notified with the new values.  `rid` stands for the generated id. -/
noncomputable def addReading (now : ℤ) (rid : String)
    (temperature confidence : ℚ) (source : String) (s : TMState) :
    TMState × UpdateEvent :=
  if confidence < (0.4 : ℚ) ∧ temperature ≤ 25 then
    (s, ⟨s.currentTemperature, s.averageTemperature, confidence,
         s.temperatureHistory.length⟩)
  else
    let r : Reading :=
      ⟨max 1 (min 100 temperature), max 0 (min 1 confidence), now, source, rid⟩
    let s1 := { s with
      temperatureHistory := s.temperatureHistory ++ [r],
      currentTemperature := r.temperature }
    let s2 := calcWeightedAverage now s1
    let s3 := cleanupOldReadings now s2
    (s3, ⟨s3.currentTemperature, s3.averageTemperature, confidence,
          s3.temperatureHistory.length⟩)

/-- `reset()`: clears the history but keeps both temperature fields; the
listener is notified with the kept values, confidence 0 and count 0. -/
def reset (s : TMState) : TMState × UpdateEvent :=
  ({ s with temperatureHistory := [] },
   ⟨s.currentTemperature, s.averageTemperature, 0, 0⟩)

/-- `setSensitivity(n)`: clamp to [1,10], then recompute the average. -/
noncomputable def setSensitivity (now : ℤ) (x : ℚ) (s : TMState) : TMState :=
  calcWeightedAverage now { s with sensitivity := max 1 (min 10 x) }

/-- `setDecayWindow(minutes)`: clamp to [5,60], prune, recompute. -/
noncomputable def setDecayWindow (now : ℤ) (m : ℚ) (s : TMState) : TMState :=
  calcWeightedAverage now
    (cleanupOldReadings now { s with decayWindowMinutes := max 5 (min 60 m) })

/-- `getHistory(minutes)` restricted to the fields `getTrend` consumes:
the stored readings whose age is at most `minutes * 60 * 1000`. -/
def getHistory (now : ℤ) (minutes : ℚ) (s : TMState) : List Reading :=
  s.temperatureHistory.filter (inWindow now (minutes * 60 * 1000))

/-- Trend direction strings of `getTrend`. -/
inductive Direction where
  | rising
  | falling
  | stable
deriving DecidableEq

/-- The record `getTrend` returns (the extra `slope` field of the long
branch is the value the thresholds are applied to and is omitted). -/
structure TrendResult where
  direction : Direction
  magnitude : ℚ
  confidence : ℚ
deriving DecidableEq

/-- The `forEach` loop of `getTrend`, accumulating
`(sumX, sumY, sumXY, sumXX)` with the reading index as x value. -/
def trendFold : List ℚ → ℕ → ℚ × ℚ × ℚ × ℚ → ℚ × ℚ × ℚ × ℚ
  | [], _, acc => acc
  | y :: ys, i, (sx, sy, sxy, sxx) =>
      trendFold ys (i + 1)
        (sx + (i : ℚ), sy + y, sxy + (i : ℚ) * y, sxx + (i : ℚ) * (i : ℚ))

/-- `getTrend()`: over the readings of the last 5 minutes, fewer than two
readings give a stable zero result; otherwise the linear-regression slope
over the reading index is thresholded at ±0.5 and the confidence is
`min(1, |slope| / 10)`. -/
def getTrend (now : ℤ) (s : TMState) : TrendResult :=
  let recent := getHistory now 5 s
  if recent.length < 2 then ⟨.stable, 0, 0⟩
  else
    let sums := trendFold (recent.map (fun r => r.temperature)) 0 (0, 0, 0, 0)
    let n : ℚ := recent.length
    let slope := (n * sums.2.2.1 - sums.1 * sums.2.1) /
      (n * sums.2.2.2 - sums.1 * sums.1)
    let magnitude := |slope|
    ⟨if (0.5 : ℚ) < slope then .rising
      else if slope < -(0.5 : ℚ) then .falling else .stable,
     magnitude, min 1 (magnitude / 10)⟩

/-- `importData` parses untyped JSON, so the history it installs may contain
entries that are not reading objects.  `RawState` mirrors `TMState` but lets
a history slot hold `none` (a JSON `null`); touching the fields of such an
entry throws a `TypeError` in JS. -/
structure RawState where
  temperatureHistory : List (Option Reading)
  currentTemperature : ℚ
  averageTemperature : ℤ
  decayWindowMinutes : ℚ
  sensitivity : ℚ
deriving DecidableEq

/-- The `settings` block of an import payload; `none` models an absent key. -/
structure ImportSettings where
  decayWindowMinutes : Option ℚ
  sensitivity : Option ℚ
deriving DecidableEq

/-- A parsed import payload: `history` is `some` when the key is present and
holds an array, `settings` when that key is present. -/
structure ImportPayload where
  history : Option (List (Option Reading))
  settings : Option ImportSettings
deriving DecidableEq

/-- `_calculateWeightedAverage` run on a raw history: its filter callback
reads `reading.temperature`, which throws on a `null` entry (`error ()`);
otherwise only `averageTemperature` changes, as computed on the readings. -/
noncomputable def rawCalcWeightedAverage (now : ℤ) (s : RawState) :
    Except Unit RawState :=
  if s.temperatureHistory.any (fun e => e.isNone) then Except.error ()
  else
    let avg := recomputeAverage now (s.decayWindowMinutes * 60 * 1000)
      s.sensitivity (s.temperatureHistory.filterMap id) s.averageTemperature
    Except.ok { s with averageTemperature := avg }

/-- The settings block of `importData`: a value is applied only when truthy
(present and nonzero), and it is assigned without clamping. -/
def applyImportSettings (st : ImportSettings) (s : RawState) : RawState :=
  let s1 := match st.decayWindowMinutes with
    | some v => if v = 0 then s else { s with decayWindowMinutes := v }
    | none => s
  match st.sensitivity with
  | some v => if v = 0 then s1 else { s1 with sensitivity := v }
  | none => s1

/-- `importData(jsonData)`.  `none` is a payload `JSON.parse` rejects (the
catch returns `false` before any mutation).  With a parsed payload the raw
history is installed first, then the average recomputed (which can throw on
a `null` entry, caught by the same catch after the history was already
replaced), then `currentTemperature` is taken from the last entry, then the
settings are applied unclamped; success returns `true`. -/
noncomputable def importData (now : ℤ) (payload : Option ImportPayload)
    (s : RawState) : Bool × RawState :=
  match payload with
  | none => (false, s)
  | some data =>
    match data.history with
    | none =>
      match data.settings with
      | some st => (true, applyImportSettings st s)
      | none => (true, s)
    | some hist =>
      let s1 := { s with temperatureHistory := hist }
      match rawCalcWeightedAverage now s1 with
      | Except.error _ => (false, s1)
      | Except.ok s2 =>
        match hist.getLast? with
        | some (some r) =>
          let s3 := { s2 with currentTemperature := r.temperature }
          match data.settings with
          | some st => (true, applyImportSettings st s3)
          | none => (true, s3)
        | some none => (false, s2)
        | none =>
          match data.settings with
          | some st => (true, applyImportSettings st s2)
          | none => (true, s2)

/-- The reading set named by the specification of the weighted average:
stored readings with `temperature > 0`, `confidence >= 0.3` and
`ageMs <= decayWindowMs`. -/
def specValidReadings (now : ℤ) (dms : ℚ) (hist : List Reading) :
    List Reading :=
  hist.filter (fun r =>
    decide (0 < r.temperature ∧ (0.3 : ℚ) ≤ r.confidence ∧
      ((now - r.timestamp : ℤ) : ℚ) ≤ dms))

/-- The weighted mean of the specification, written from its words:
`average = round(Σ(temperature·weight) / Σ(weight))` with
`weight = timeWeight ^ ((11 - sensitivity)/5) * confidence` and
`timeWeight = max(0, 1 - ageMs/decayWindowMs)`, over `specValidReadings`. -/
noncomputable def specAverage (now : ℤ) (dms sens : ℚ)
    (hist : List Reading) : ℤ :=
  let qual := specValidReadings now dms hist
  let weight : Reading → ℝ := fun r =>
    Real.rpow ((max 0 (1 - ((now - r.timestamp : ℤ) : ℚ) / dms) : ℚ) : ℝ)
      (((11 - sens) / 5 : ℚ) : ℝ) * (r.confidence : ℝ)
  round (((qual.map (fun r => (r.temperature : ℝ) * weight r)).sum) /
    ((qual.map weight).sum))

/-- The total weight accumulated by the weighted-average computation. -/
noncomputable def totalWeight (now : ℤ) (s : TMState) : ℝ :=
  ((specValidReadings now (decayWindowMs s) s.temperatureHistory).map
    (readingWeight now (decayWindowMs s) s.sensitivity)).sum

/-- The ordinary-least-squares slope of a value list against its index,
written as the textbook formula
`(n·ΣXY − ΣX·ΣY) / (n·ΣXX − ΣX·ΣX)` with x ranging over the indices. -/
def olsSlope (ys : List ℚ) : ℚ :=
  let pts := ys.enumFrom 0
  let n : ℚ := ys.length
  let sumX := (pts.map (fun p => (p.1 : ℚ))).sum
  let sumY := (pts.map (fun p => p.2)).sum
  let sumXY := (pts.map (fun p => (p.1 : ℚ) * p.2)).sum
  let sumXX := (pts.map (fun p => (p.1 : ℚ) * (p.1 : ℚ))).sum
  (n * sumXY - sumX * sumY) / (n * sumXX - sumX * sumX)

end TemperatureManager

namespace AudioRecorder

/-- The scheduler state of `AudioRecorder` (an initialized recorder):
`isRecording` and the interval handle `recordingInterval` (modelled as the
flag `intervalActive`), the number of pending 100 ms settle timeouts
scheduled by the interval callback, the `MediaRecorder` state
(`mediaRecording` means state `recording`, otherwise `inactive`), counters
of chunk starts (`mediaRecorder.start()`) and emissions
(`mediaRecorder.stop()`, which fires `onstop` and delivers the blob), and
`intervalDuration`. -/
structure RecState where
  isRecording : Bool
  intervalActive : Bool
  pendingSettle : ℕ
  mediaRecording : Bool
  chunksStarted : ℕ
  chunksEmitted : ℕ
  intervalDuration : ℚ
deriving DecidableEq

/-- `_startRecordingChunk`: starts the media recorder only when inactive. -/
def startChunk (s : RecState) : RecState :=
  if s.mediaRecording then s
  else { s with mediaRecording := true, chunksStarted := s.chunksStarted + 1 }

/-- `_stopRecordingChunk`: stops the media recorder only when recording,
which finalizes and emits the in-flight chunk. -/
def stopChunk (s : RecState) : RecState :=
  if s.mediaRecording then
    { s with mediaRecording := false, chunksEmitted := s.chunksEmitted + 1 }
  else s

/-- `startRecording()`: no-op with a warning when already recording;
otherwise sets `isRecording`, starts the first chunk immediately and
installs the interval timer. -/
def startRecording (s : RecState) : RecState :=
  if s.isRecording then s
  else
    let s1 := startChunk { s with isRecording := true }
    { s1 with intervalActive := true }

/-- `stopRecording()`: no-op with a warning when not recording; otherwise
clears `isRecording`, cancels the interval timer and stops the in-flight
chunk if one is active.  Pending settle timeouts are not cancelled. -/
def stopRecording (s : RecState) : RecState :=
  if s.isRecording then
    stopChunk { s with isRecording := false, intervalActive := false }
  else s

/-- The interval callback: when still recording, finalize the current chunk
and schedule the 100 ms settle timeout for the next one. -/
def intervalTick (s : RecState) : RecState :=
  if s.isRecording then
    let s1 := stopChunk s
    { s1 with pendingSettle := s1.pendingSettle + 1 }
  else s

/-- Expiry of one settle timeout: starts the next chunk only if still in
recording state at delay-expiry. -/
def settleFire (s : RecState) : RecState :=
  let s1 := { s with pendingSettle := s.pendingSettle - 1 }
  if s1.isRecording then startChunk s1 else s1

/-- The events of the scheduler: the public calls `start()`/`stop()`, an
interval-timer tick, and the expiry of a settle timeout. -/
inductive RecEvent where
  | start
  | stop
  | tick
  | settle
deriving DecidableEq

/-- One event of the cooperative event loop, run to completion. -/
def step (s : RecState) : RecEvent → RecState
  | RecEvent.start => startRecording s
  | RecEvent.stop => stopRecording s
  | RecEvent.tick => intervalTick s
  | RecEvent.settle => settleFire s

/-- Running a sequence of events. -/
def runEvents (s : RecState) (es : List RecEvent) : RecState :=
  es.foldl step s

/-- `setIntervalDuration(duration)`: clamp to [10000, 60000] and store; if
currently recording, stop (the deferred restart 200 ms later re-enters
through `startRecording` and is not part of this synchronous step). -/
def setIntervalDuration (d : ℚ) (s : RecState) : RecState :=
  let s1 := { s with intervalDuration := max 10000 (min 60000 d) }
  if s1.isRecording then stopRecording s1 else s1

end AudioRecorder

namespace TemperatureManager

/-- Projecting the average out of `_calculateWeightedAverage`. -/
lemma calcWeightedAverage_avg (now : ℤ) (s : TMState) :
    (calcWeightedAverage now s).averageTemperature =
      recomputeAverage now (decayWindowMs s) s.sensitivity
        s.temperatureHistory s.averageTemperature := rfl

/-- `_calculateWeightedAverage` leaves the history unchanged. -/
lemma calcWeightedAverage_history (now : ℤ) (s : TMState) :
    (calcWeightedAverage now s).temperatureHistory = s.temperatureHistory :=
  rfl

/-- `_calculateWeightedAverage` leaves the current temperature unchanged. -/
lemma calcWeightedAverage_current (now : ℤ) (s : TMState) :
    (calcWeightedAverage now s).currentTemperature = s.currentTemperature :=
  rfl

/-- The accumulation loop equals filtering the in-window readings and
summing their contributions. -/
lemma loopWeights_eq (now : ℤ) (dms sens : ℚ) (l : List Reading) (a b : ℝ) :
    loopWeights now dms sens l (a, b) =
      (a + ((l.filter (inWindow now dms)).map
          (fun r => (r.temperature : ℝ) * readingWeight now dms sens r)).sum,
       b + ((l.filter (inWindow now dms)).map
          (readingWeight now dms sens)).sum) := by
  induction l generalizing a b with
  | nil => simp [loopWeights]
  | cons r rs ih =>
    rw [show loopWeights now dms sens (r :: rs) (a, b) =
        if dms < ((now - r.timestamp : ℤ) : ℚ) then
          loopWeights now dms sens rs (a, b)
        else
          loopWeights now dms sens rs
            (a + (r.temperature : ℝ) * readingWeight now dms sens r,
             b + readingWeight now dms sens r) from rfl]
    by_cases h : dms < ((now - r.timestamp : ℤ) : ℚ)
    · have hw : inWindow now dms r = false := by
        unfold inWindow
        exact decide_eq_false (not_le.mpr h)
      rw [if_pos h, ih, List.filter_cons_of_neg (by simp [hw])]
    · have hw : inWindow now dms r = true := by
        unfold inWindow
        exact decide_eq_true (not_lt.mp h)
      rw [if_neg h, ih, List.filter_cons_of_pos (by simp [hw])]
      simp [add_assoc]

/-- The specification's qualifying set is the code's `validReadings`
further restricted to the decay window. -/
lemma specValid_eq (now : ℤ) (dms : ℚ) (hist : List Reading) :
    specValidReadings now dms hist =
      (validReadings hist).filter (inWindow now dms) := by
  unfold specValidReadings validReadings
  rw [List.filter_filter]
  have hp : (fun r : Reading =>
      decide (0 < r.temperature ∧ (0.3 : ℚ) ≤ r.confidence ∧
        ((now - r.timestamp : ℤ) : ℚ) ≤ dms)) =
      (fun r : Reading => inWindow now dms r && isValidReading r) := by
    funext r
    simp [inWindow, isValidReading, Bool.and_comm, Bool.and_left_comm,
      Bool.and_assoc]
  rw [hp]

/-- Closed form of the average computation: keep the previous value when no
reading is valid or the in-window weight does not come out positive, else
round the weighted mean over the specification's qualifying set. -/
lemma recomputeAverage_eq (now : ℤ) (dms sens : ℚ) (hist : List Reading)
    (prev : ℤ) :
    recomputeAverage now dms sens hist prev =
      if (validReadings hist).isEmpty then prev
      else
        if 0 < ((specValidReadings now dms hist).map
            (readingWeight now dms sens)).sum then
          round ((((specValidReadings now dms hist).map
              (fun r => (r.temperature : ℝ) *
                readingWeight now dms sens r)).sum) /
            (((specValidReadings now dms hist).map
              (readingWeight now dms sens)).sum))
        else prev := by
  unfold recomputeAverage
  rw [specValid_eq, loopWeights_eq]
  simp

/-- The `forEach` accumulation of `getTrend` equals the index-value sums
over the enumerated list. -/
lemma trendFold_eq (ys : List ℚ) :
    ∀ (i : ℕ) (sx sy sxy sxx : ℚ),
      trendFold ys i (sx, sy, sxy, sxx) =
        (sx + ((ys.enumFrom i).map (fun p => (p.1 : ℚ))).sum,
         sy + ((ys.enumFrom i).map (fun p => p.2)).sum,
         sxy + ((ys.enumFrom i).map (fun p => (p.1 : ℚ) * p.2)).sum,
         sxx + ((ys.enumFrom i).map (fun p => (p.1 : ℚ) * (p.1 : ℚ))).sum) := by
  induction ys with
  | nil => intro i sx sy sxy sxx; simp [trendFold]
  | cons y ys ih =>
    intro i sx sy sxy sxx
    rw [show trendFold (y :: ys) i (sx, sy, sxy, sxx) =
        trendFold ys (i + 1)
          (sx + (i : ℚ), sy + y, sxy + (i : ℚ) * y,
           sxx + (i : ℚ) * (i : ℚ)) from rfl, ih]
    simp only [List.enumFrom_cons, List.map_cons, List.sum_cons,
      Prod.mk.injEq]
    exact ⟨by ring, by ring, by ring, by ring⟩

/-- Claim C7: `getTrend()` returns the stable zero result when fewer than
two readings fall in the last 5 minutes, and otherwise thresholds the
ordinary-least-squares slope of temperature against the reading index at
±0.5, with confidence `min(1, |slope|/10)`. -/
theorem getTrend_matches_ols (now : ℤ) (s : TMState) :
    getTrend now s =
      (if ((getHistory now 5 s).map (fun r => r.temperature)).length < 2 then
        ⟨Direction.stable, 0, 0⟩
      else
        ⟨if (0.5 : ℚ) <
              olsSlope ((getHistory now 5 s).map (fun r => r.temperature))
            then Direction.rising
          else if olsSlope ((getHistory now 5 s).map (fun r => r.temperature))
              < -(0.5 : ℚ) then Direction.falling
          else Direction.stable,
         |olsSlope ((getHistory now 5 s).map (fun r => r.temperature))|,
         min 1
           (|olsSlope ((getHistory now 5 s).map (fun r => r.temperature))| /
             10)⟩) := by
  simp only [getTrend, olsSlope, trendFold_eq, List.length_map, zero_add]

/-- Claim C1: whenever the qualifying readings carry positive total weight,
the recomputed average equals the rounded weighted mean of the
specification, taken over exactly the readings with positive temperature,
confidence at least 0.3 and age within the decay window. -/
theorem average_matches_spec (now : ℤ) (s : TMState)
    (hs1 : 1 ≤ s.sensitivity) (hs2 : s.sensitivity ≤ 10)
    (hd1 : 5 ≤ s.decayWindowMinutes) (hd2 : s.decayWindowMinutes ≤ 60)
    (hw : 0 < totalWeight now s) :
    (calcWeightedAverage now s).averageTemperature =
      specAverage now (decayWindowMs s) s.sensitivity s.temperatureHistory := by
  have hvalid : (validReadings s.temperatureHistory).isEmpty = false := by
    rcases hev : (validReadings s.temperatureHistory).isEmpty with _ | _
    · rfl
    · exfalso
      have hnil : validReadings s.temperatureHistory = [] :=
        List.isEmpty_iff.mp hev
      rw [totalWeight, specValid_eq, hnil] at hw
      simp at hw
  have hw2 : 0 < ((specValidReadings now (decayWindowMs s)
      s.temperatureHistory).map
      (readingWeight now (decayWindowMs s) s.sensitivity)).sum := hw
  rw [calcWeightedAverage_avg, recomputeAverage_eq, if_neg (by simp [hvalid]),
    if_pos hw2]
  rfl

/-- Witness for C1 at a single fresh reading `(70, 0.9)`: its weight is
`1 ^ (6/5) * 0.9 = 0.9 > 0` and the theorem applies. -/
theorem average_matches_spec_witness :
    (0 < totalWeight 0 ⟨[⟨70, 0.9, 0, "api", "a"⟩], 70, 0, 15, 5⟩) ∧
    (calcWeightedAverage 0
        ⟨[⟨70, 0.9, 0, "api", "a"⟩], 70, 0, 15, 5⟩).averageTemperature =
      specAverage 0
        (decayWindowMs ⟨[⟨70, 0.9, 0, "api", "a"⟩], 70, 0, 15, 5⟩)
        (TMState.sensitivity ⟨[⟨70, 0.9, 0, "api", "a"⟩], 70, 0, 15, 5⟩)
        (TMState.temperatureHistory
          ⟨[⟨70, 0.9, 0, "api", "a"⟩], 70, 0, 15, 5⟩) := by
  have hw : 0 < totalWeight 0 ⟨[⟨70, 0.9, 0, "api", "a"⟩], 70, 0, 15, 5⟩ := by
    unfold totalWeight specValidReadings readingWeight decayWindowMs
    norm_num [Real.one_rpow]
  exact ⟨hw, average_matches_spec 0 _ (by norm_num) (by norm_num)
    (by norm_num) (by norm_num) hw⟩

/-- Claim C2: a reading with confidence below 0.4 and temperature at most
25 is suppressed as silence — the state is unchanged and the listener is
notified with the unchanged current and average values. -/
theorem silence_suppression (now : ℤ) (rid : String) (t c : ℚ)
    (src : String) (s : TMState) (hc : c < (0.4 : ℚ)) (ht : t ≤ 25) :
    addReading now rid t c src s =
      (s, ⟨s.currentTemperature, s.averageTemperature, c,
           s.temperatureHistory.length⟩) := by
  unfold addReading
  rw [if_pos ⟨hc, ht⟩]

/-- Witness for C2: `addReading(10, 0.2)` on a populated state. -/
theorem silence_suppression_witness :
    ((0.2 : ℚ) < (0.4 : ℚ) ∧ (10 : ℚ) ≤ 25) ∧
    addReading 0 "w" 10 0.2 "api" ⟨[], 50, 42, 15, 5⟩ =
      (⟨[], 50, 42, 15, 5⟩, ⟨50, 42, 0.2, 0⟩) :=
  ⟨by norm_num,
   silence_suppression 0 "w" 10 0.2 "api" ⟨[], 50, 42, 15, 5⟩
     (by norm_num) (by norm_num)⟩

/-- Claim C3: the temperature fields are sticky.  With no valid reading the
average recomputation is the identity; with zero total weight the average
is kept; when every stored reading has expired, pruning plus recomputation
empties the history but keeps the average; `reset()` clears the history
and keeps both temperature fields; and `addReading` either leaves
`currentTemperature` unchanged or sets it to a clamped value of at least 1,
so neither field ever returns to the zero sentinel. -/
theorem sticky_temperature_fields :
    (∀ (now : ℤ) (s : TMState),
        validReadings s.temperatureHistory = [] →
        calcWeightedAverage now s = s) ∧
    (∀ (now : ℤ) (s : TMState), totalWeight now s = 0 →
        (calcWeightedAverage now s).averageTemperature =
          s.averageTemperature) ∧
    (∀ (now : ℤ) (s : TMState),
        (∀ r ∈ s.temperatureHistory,
          inWindow now (decayWindowMs s) r = false) →
        (calcWeightedAverage now
            (cleanupOldReadings now s)).averageTemperature =
          s.averageTemperature ∧
        (calcWeightedAverage now
            (cleanupOldReadings now s)).temperatureHistory = []) ∧
    (∀ s : TMState,
        (reset s).1.temperatureHistory = [] ∧
        (reset s).1.currentTemperature = s.currentTemperature ∧
        (reset s).1.averageTemperature = s.averageTemperature) ∧
    (∀ (now : ℤ) (rid : String) (t c : ℚ) (src : String) (s : TMState),
        (addReading now rid t c src s).1.currentTemperature =
          s.currentTemperature ∨
        1 ≤ (addReading now rid t c src s).1.currentTemperature) := by
  have hcalc : ∀ (now : ℤ) (s : TMState),
      validReadings s.temperatureHistory = [] →
      calcWeightedAverage now s = s := by
    intro now s h
    unfold calcWeightedAverage recomputeAverage
    rw [h]
    rfl
  refine ⟨hcalc, ?_, ?_, ?_, ?_⟩
  · intro now s h
    rw [calcWeightedAverage_avg, recomputeAverage_eq]
    rcases hev : (validReadings s.temperatureHistory).isEmpty with _ | _
    · rw [if_neg (by simp [hev])]
      have hw : ¬ (0 < ((specValidReadings now (decayWindowMs s)
          s.temperatureHistory).map
          (readingWeight now (decayWindowMs s) s.sensitivity)).sum) := by
        rw [show ((specValidReadings now (decayWindowMs s)
            s.temperatureHistory).map
            (readingWeight now (decayWindowMs s) s.sensitivity)).sum =
          totalWeight now s from rfl, h]
        exact lt_irrefl 0
      rw [if_neg hw]
    · rw [if_pos (by simp [hev])]
  · intro now s h
    have hnil : (cleanupOldReadings now s).temperatureHistory = [] := by
      unfold cleanupOldReadings
      exact List.filter_eq_nil_iff.mpr (by intro r hr; simp [h r hr])
    have hval : validReadings
        (cleanupOldReadings now s).temperatureHistory = [] := by
      rw [hnil]; rfl
    constructor
    · rw [hcalc now _ hval]
      rfl
    · rw [hcalc now _ hval, hnil]
  · intro s
    exact ⟨rfl, rfl, rfl⟩
  · intro now rid t c src s
    unfold addReading
    by_cases hsil : c < (0.4 : ℚ) ∧ t ≤ 25
    · rw [if_pos hsil]
      exact Or.inl rfl
    · rw [if_neg hsil]
      exact Or.inr (le_max_left _ _)

/-- Witness for C3: a state whose single reading is 1000000 seconds old
under a 15-minute window; pruning empties the history, the average 47 is
kept. -/
theorem sticky_temperature_fields_witness :
    (∀ r ∈ ([⟨50, 1, 0, "api", "x"⟩] : List Reading),
      inWindow 1000000000
        (decayWindowMs ⟨[⟨50, 1, 0, "api", "x"⟩], 50, 47, 15, 5⟩) r =
        false) ∧
    (calcWeightedAverage 1000000000
        (cleanupOldReadings 1000000000
          ⟨[⟨50, 1, 0, "api", "x"⟩], 50, 47, 15, 5⟩)).averageTemperature =
      47 ∧
    (calcWeightedAverage 1000000000
        (cleanupOldReadings 1000000000
          ⟨[⟨50, 1, 0, "api", "x"⟩], 50, 47, 15, 5⟩)).temperatureHistory =
      [] :=
  ⟨by simp [inWindow, decayWindowMs]; norm_num,
   (sticky_temperature_fields.2.2.1 1000000000
      ⟨[⟨50, 1, 0, "api", "x"⟩], 50, 47, 15, 5⟩
      (by simp [inWindow, decayWindowMs]; norm_num)).1,
   (sticky_temperature_fields.2.2.1 1000000000
      ⟨[⟨50, 1, 0, "api", "x"⟩], 50, 47, 15, 5⟩
      (by simp [inWindow, decayWindowMs]; norm_num)).2⟩

/-- Claim C10: a reading with temperature above 25 and confidence below 0.3
(the synthetic transport-error fallback) passes the silence filter: it is
stored (appended after the prune), `currentTemperature` becomes its clamped
temperature, yet the recomputed average is exactly the average over the
history without it, because the valid-reading filter demands confidence at
least 0.3. -/
theorem lowconf_hot_reading (now : ℤ) (rid : String) (t c : ℚ)
    (src : String) (s : TMState) (ht : 25 < t) (hc0 : 0 ≤ c)
    (hc : c < (0.3 : ℚ)) (hd : 0 < s.decayWindowMinutes) :
    (addReading now rid t c src s).1.temperatureHistory =
      s.temperatureHistory.filter (inWindow now (decayWindowMs s)) ++
        [⟨max 1 (min 100 t), max 0 (min 1 c), now, src, rid⟩] ∧
    (addReading now rid t c src s).1.currentTemperature =
      max 1 (min 100 t) ∧
    (addReading now rid t c src s).1.averageTemperature =
      (calcWeightedAverage now s).averageTemperature := by
  have hsil : ¬ (c < (0.4 : ℚ) ∧ t ≤ 25) := fun h => absurd ht (not_lt.mpr h.2)
  have h1 : (addReading now rid t c src s).1 =
      cleanupOldReadings now (calcWeightedAverage now
        { s with
          temperatureHistory := s.temperatureHistory ++
            [⟨max 1 (min 100 t), max 0 (min 1 c), now, src, rid⟩],
          currentTemperature := max 1 (min 100 t) }) := by
    unfold addReading
    rw [if_neg hsil]
  have hin : inWindow now (decayWindowMs s)
      ⟨max 1 (min 100 t), max 0 (min 1 c), now, src, rid⟩ = true := by
    unfold inWindow
    apply decide_eq_true
    show ((now - now : ℤ) : ℚ) ≤ decayWindowMs s
    have hpos : (0 : ℚ) ≤ decayWindowMs s := by
      unfold decayWindowMs
      exact mul_nonneg (mul_nonneg hd.le (by norm_num)) (by norm_num)
    simpa using hpos
  have hvr : validReadings (s.temperatureHistory ++
      [⟨max 1 (min 100 t), max 0 (min 1 c), now, src, rid⟩]) =
      validReadings s.temperatureHistory := by
    unfold validReadings
    rw [List.filter_append]
    have hvi : isValidReading
        ⟨max 1 (min 100 t), max 0 (min 1 c), now, src, rid⟩ = false := by
      unfold isValidReading
      apply decide_eq_false
      rintro ⟨-, h2⟩
      have hcc : max 0 (min 1 c) = c := by
        rw [min_eq_right (le_trans hc.le (by norm_num)), max_eq_right hc0]
      rw [show (⟨max 1 (min 100 t), max 0 (min 1 c), now, src, rid⟩ :
          Reading).confidence = max 0 (min 1 c) from rfl, hcc] at h2
      exact absurd h2 (not_le.mpr hc)
    rw [List.filter_cons_of_neg (by simp [hvi])]
    simp
  refine ⟨?_, ?_, ?_⟩
  · rw [h1]
    show (s.temperatureHistory ++
        [(⟨max 1 (min 100 t), max 0 (min 1 c), now, src, rid⟩ : Reading)]).filter
          (inWindow now (decayWindowMs s)) = _
    rw [List.filter_append, List.filter_cons_of_pos (by simp [hin])]
    rfl
  · rw [h1]
    rfl
  · rw [h1]
    show recomputeAverage now (decayWindowMs s) s.sensitivity
        (s.temperatureHistory ++
          [⟨max 1 (min 100 t), max 0 (min 1 c), now, src, rid⟩])
        s.averageTemperature = _
    unfold recomputeAverage
    rw [hvr]
    rfl

/-- Witness for C10: the transport-error fallback `addReading(30, 0.1)` on
a one-reading state. -/
theorem lowconf_hot_reading_witness :
    ((25 : ℚ) < 30 ∧ (0 : ℚ) ≤ 0.1 ∧ (0.1 : ℚ) < 0.3 ∧
      (0 : ℚ) < TMState.decayWindowMinutes
        ⟨[⟨60, 1, 0, "api", "x"⟩], 60, 60, 15, 5⟩) ∧
    ((addReading 0 "e" 30 0.1 "error"
        ⟨[⟨60, 1, 0, "api", "x"⟩], 60, 60, 15, 5⟩).1.temperatureHistory =
      (TMState.temperatureHistory
          ⟨[⟨60, 1, 0, "api", "x"⟩], 60, 60, 15, 5⟩).filter
        (inWindow 0 (decayWindowMs ⟨[⟨60, 1, 0, "api", "x"⟩], 60, 60, 15, 5⟩))
        ++ [⟨max 1 (min 100 30), max 0 (min 1 0.1), 0, "error", "e"⟩] ∧
    (addReading 0 "e" 30 0.1 "error"
        ⟨[⟨60, 1, 0, "api", "x"⟩], 60, 60, 15, 5⟩).1.currentTemperature =
      max 1 (min 100 30) ∧
    (addReading 0 "e" 30 0.1 "error"
        ⟨[⟨60, 1, 0, "api", "x"⟩], 60, 60, 15, 5⟩).1.averageTemperature =
      (calcWeightedAverage 0
        ⟨[⟨60, 1, 0, "api", "x"⟩], 60, 60, 15, 5⟩).averageTemperature) :=
  ⟨⟨by norm_num, by norm_num, by norm_num, by norm_num⟩,
   lowconf_hot_reading 0 "e" 30 0.1 "error"
     ⟨[⟨60, 1, 0, "api", "x"⟩], 60, 60, 15, 5⟩
     (by norm_num) (by norm_num) (by norm_num) (by norm_num)⟩

end TemperatureManager

namespace AudioRecorder

/-- Once `isRecording` is false, any run of events without a `start()` call
keeps it false and starts no chunk. -/
lemma runEvents_no_start (es : List RecEvent) (hes : RecEvent.start ∉ es) :
    ∀ s : RecState, s.isRecording = false →
      (runEvents s es).isRecording = false ∧
      (runEvents s es).chunksStarted = s.chunksStarted := by
  induction es with
  | nil => intro s hs; exact ⟨hs, rfl⟩
  | cons e es ih =>
    intro s hs
    have he : e ≠ RecEvent.start := fun h => hes (h ▸ List.mem_cons_self e es)
    have hes2 : RecEvent.start ∉ es := fun h => hes (List.mem_cons_of_mem e h)
    have hstep : (step s e).isRecording = false ∧
        (step s e).chunksStarted = s.chunksStarted := by
      cases e with
      | start => exact absurd rfl he
      | stop => unfold step stopRecording; rw [hs]; exact ⟨hs, rfl⟩
      | tick => unfold step intervalTick; rw [hs]; exact ⟨hs, rfl⟩
      | settle =>
        unfold step settleFire startChunk
        simp [hs]
    have := ih hes2 (step s e) hstep.1
    exact ⟨this.1, by rw [show runEvents s (e :: es) =
      runEvents (step s e) es from rfl, this.2, hstep.2]⟩

/-- Claim C4: no chunk starts after a `stop()` has been observed — in any
event run without a further `start()` the chunk-start counter is frozen,
which in particular suppresses a settle-delay expiry pending at the stop;
and on a stop/start cycle of a mid-chunk recorder the in-flight chunk is
emitted exactly once by the stop and exactly one new chunk is started by
the start, a stale settle expiry adding none. -/
theorem no_chunk_after_stop :
    (∀ (s : RecState) (es : List RecEvent), RecEvent.start ∉ es →
        (runEvents (stopRecording s) es).chunksStarted = s.chunksStarted) ∧
    (∀ s : RecState, s.isRecording = true → s.mediaRecording = true →
        (stopRecording s).chunksEmitted = s.chunksEmitted + 1 ∧
        (stopRecording s).mediaRecording = false) ∧
    (∀ s : RecState, s.isRecording = true → s.mediaRecording = true →
        (runEvents s [RecEvent.stop, RecEvent.start,
            RecEvent.settle]).chunksStarted = s.chunksStarted + 1 ∧
        (runEvents s [RecEvent.stop, RecEvent.start,
            RecEvent.settle]).chunksEmitted = s.chunksEmitted + 1) := by
  have hstop : ∀ s : RecState, (stopRecording s).isRecording = false ∧
      (stopRecording s).chunksStarted = s.chunksStarted := by
    intro s
    unfold stopRecording stopChunk
    rcases hr : s.isRecording with _ | _
    · simp [hr]
    · rcases hm : s.mediaRecording with _ | _ <;> simp [hr, hm]
  refine ⟨?_, ?_, ?_⟩
  · intro s es hes
    rw [(runEvents_no_start es hes (stopRecording s) (hstop s).1).2,
      (hstop s).2]
  · intro s hr hm
    unfold stopRecording stopChunk
    simp [hr, hm]
  · intro s hr hm
    constructor <;>
      simp [runEvents, step, stopRecording, startRecording, settleFire,
        startChunk, stopChunk, hr, hm]

/-- Witness for C4: a recording, mid-chunk state with one pending settle
timeout; a tick and a settle after the stop start nothing, and the
stop/start cycle emits and starts exactly one chunk. -/
theorem no_chunk_after_stop_witness :
    (RecEvent.start ∉ [RecEvent.tick, RecEvent.settle] ∧
      (runEvents (stopRecording ⟨true, true, 1, true, 3, 2, 20000⟩)
        [RecEvent.tick, RecEvent.settle]).chunksStarted = 3) ∧
    ((⟨true, true, 1, true, 3, 2, 20000⟩ : RecState).isRecording = true ∧
      (⟨true, true, 1, true, 3, 2, 20000⟩ : RecState).mediaRecording = true ∧
      (runEvents ⟨true, true, 1, true, 3, 2, 20000⟩
        [RecEvent.stop, RecEvent.start, RecEvent.settle]).chunksStarted = 4 ∧
      (runEvents ⟨true, true, 1, true, 3, 2, 20000⟩
        [RecEvent.stop, RecEvent.start, RecEvent.settle]).chunksEmitted = 3) :=
  ⟨⟨by decide,
    no_chunk_after_stop.1 ⟨true, true, 1, true, 3, 2, 20000⟩
      [RecEvent.tick, RecEvent.settle] (by decide)⟩,
   ⟨rfl, rfl,
    (no_chunk_after_stop.2.2 ⟨true, true, 1, true, 3, 2, 20000⟩ rfl rfl).1,
    (no_chunk_after_stop.2.2 ⟨true, true, 1, true, 3, 2, 20000⟩ rfl rfl).2⟩⟩

/-- Claim C9: `stop()` on a non-recording session and `start()` on an
already-recording session are exact no-ops on the session state. -/
theorem stop_start_idempotent (s t : RecState)
    (hs : s.isRecording = false) (ht : t.isRecording = true) :
    stopRecording s = s ∧ startRecording t = t := by
  constructor
  · simp [stopRecording, hs]
  · simp [startRecording, ht]

/-- Witness for C9 at concrete non-recording and recording states. -/
theorem stop_start_idempotent_witness :
    ((⟨false, false, 0, false, 5, 5, 20000⟩ : RecState).isRecording = false ∧
      (⟨true, true, 0, true, 5, 4, 20000⟩ : RecState).isRecording = true) ∧
    (stopRecording ⟨false, false, 0, false, 5, 5, 20000⟩ =
        ⟨false, false, 0, false, 5, 5, 20000⟩ ∧
      startRecording ⟨true, true, 0, true, 5, 4, 20000⟩ =
        ⟨true, true, 0, true, 5, 4, 20000⟩) :=
  ⟨⟨rfl, rfl⟩,
   stop_start_idempotent ⟨false, false, 0, false, 5, 5, 20000⟩
     ⟨true, true, 0, true, 5, 4, 20000⟩ rfl rfl⟩

/-- `stopRecording` never changes the stored interval duration. -/
lemma stopRecording_intervalDuration (s : RecState) :
    (stopRecording s).intervalDuration = s.intervalDuration := by
  unfold stopRecording stopChunk
  rcases hr : s.isRecording with _ | _
  · simp [hr]
  · rcases hm : s.mediaRecording with _ | _ <;> simp [hr, hm]

/-- `setIntervalDuration` stores exactly the clamped duration. -/
lemma setIntervalDuration_eq (d : ℚ) (s : RecState) :
    (setIntervalDuration d s).intervalDuration = max 10000 (min 60000 d) := by
  rcases hr : s.isRecording with _ | _ <;>
    simp [setIntervalDuration, hr, stopRecording_intervalDuration]

end AudioRecorder

/-- Claim C8: `setSensitivity` clamps its argument to [1,10] and
`setIntervalDuration` clamps its argument to [10000,60000] before storing
it; in particular 15 becomes sensitivity 10 and 5000 becomes interval
10000. -/
theorem setter_clamps_exact :
    (∀ (now : ℤ) (x : ℚ) (s : TemperatureManager.TMState),
        (TemperatureManager.setSensitivity now x s).sensitivity =
          max 1 (min 10 x)) ∧
    (∀ (d : ℚ) (s : AudioRecorder.RecState),
        (AudioRecorder.setIntervalDuration d s).intervalDuration =
          max 10000 (min 60000 d)) ∧
    (∀ (now : ℤ) (s : TemperatureManager.TMState),
        (TemperatureManager.setSensitivity now 15 s).sensitivity = 10) ∧
    (∀ s : AudioRecorder.RecState,
        (AudioRecorder.setIntervalDuration 5000 s).intervalDuration =
          10000) := by
  have h1 : ∀ (now : ℤ) (x : ℚ) (s : TemperatureManager.TMState),
      (TemperatureManager.setSensitivity now x s).sensitivity =
        max 1 (min 10 x) := fun _ _ _ => rfl
  refine ⟨h1, AudioRecorder.setIntervalDuration_eq, ?_, ?_⟩
  · intro now s
    rw [h1]
    norm_num
  · intro s
    rw [AudioRecorder.setIntervalDuration_eq]
    norm_num

/-- Amended claim C6: every mutation through `setSensitivity`,
`setDecayWindow` and `setIntervalDuration` leaves sensitivity in [1,10],
the decay window in [5,60] and the interval duration in [10000,60000];
`importData`, however, stores imported settings without re-clamping (see
the counterexample). -/
theorem setters_stay_in_range :
    (∀ (now : ℤ) (x : ℚ) (s : TemperatureManager.TMState),
        1 ≤ (TemperatureManager.setSensitivity now x s).sensitivity ∧
        (TemperatureManager.setSensitivity now x s).sensitivity ≤ 10) ∧
    (∀ (now : ℤ) (m : ℚ) (s : TemperatureManager.TMState),
        5 ≤ (TemperatureManager.setDecayWindow now m s).decayWindowMinutes ∧
        (TemperatureManager.setDecayWindow now m s).decayWindowMinutes
          ≤ 60) ∧
    (∀ (d : ℚ) (s : AudioRecorder.RecState),
        10000 ≤ (AudioRecorder.setIntervalDuration d s).intervalDuration ∧
        (AudioRecorder.setIntervalDuration d s).intervalDuration ≤ 60000) := by
  refine ⟨?_, ?_, ?_⟩
  · intro now x s
    show 1 ≤ max 1 (min 10 x) ∧ max 1 (min 10 x) ≤ 10
    exact ⟨le_max_left _ _, max_le (by norm_num) (min_le_left _ _)⟩
  · intro now m s
    show 5 ≤ max 5 (min 60 m) ∧ max 5 (min 60 m) ≤ 60
    exact ⟨le_max_left _ _, max_le (by norm_num) (min_le_left _ _)⟩
  · intro d s
    rw [AudioRecorder.setIntervalDuration_eq]
    exact ⟨le_max_left _ _, max_le (by norm_num) (min_le_left _ _)⟩

/-- Counterexample to C6 as stated: a successful import with
`decayWindowMinutes: 1000` in its settings leaves the decay window at 1000,
outside [5,60] — `importData` does not re-clamp. -/
theorem import_no_clamp_cex :
    (TemperatureManager.importData 0
        (some ⟨none, some ⟨some 1000, none⟩⟩) ⟨[], 0, 0, 15, 5⟩).1 =
      true ∧
    (TemperatureManager.importData 0
        (some ⟨none, some ⟨some 1000, none⟩⟩)
        ⟨[], 0, 0, 15, 5⟩).2.decayWindowMinutes = 1000 ∧
    ¬ ((TemperatureManager.importData 0
        (some ⟨none, some ⟨some 1000, none⟩⟩)
        ⟨[], 0, 0, 15, 5⟩).2.decayWindowMinutes ≤ 60) := by
  refine ⟨rfl, rfl, ?_⟩
  norm_num [TemperatureManager.importData,
    TemperatureManager.applyImportSettings]

/-- Counterexample to C5 as stated: the payload `{"history":[null]}` is
parsed, the raw history is installed, and the average recomputation throws
on the `null` entry; the import reports failure (`false`) but the reading
list has already been replaced — the failure is not atomic. -/
theorem import_partial_mutation_cex :
    (TemperatureManager.importData 0 (some ⟨some [none], none⟩)
        ⟨[], 0, 0, 15, 5⟩).1 = false ∧
    (TemperatureManager.importData 0 (some ⟨some [none], none⟩)
        ⟨[], 0, 0, 15, 5⟩).2.temperatureHistory = [none] ∧
    (TemperatureManager.importData 0 (some ⟨some [none], none⟩)
        ⟨[], 0, 0, 15, 5⟩).2 ≠ (⟨[], 0, 0, 15, 5⟩ :
          TemperatureManager.RawState) := by
  refine ⟨rfl, rfl, ?_⟩
  intro h
  have := congrArg TemperatureManager.RawState.temperatureHistory h
  simp [TemperatureManager.importData,
    TemperatureManager.rawCalcWeightedAverage] at this

/-- Amended claim C5: when the payload is not parseable JSON the import
fails atomically — it returns `false` and the whole prior state is
untouched; but a parseable payload whose history array contains a `null`
entry makes the import return `false` only after the reading list has
already been replaced, so the failure is not atomic in general. -/
theorem import_failure_paths :
    (∀ (now : ℤ) (s : TemperatureManager.RawState),
        TemperatureManager.importData now none s = (false, s)) ∧
    (∀ (now : ℤ) (s : TemperatureManager.RawState)
        (hist : List (Option TemperatureManager.Reading))
        (st : Option TemperatureManager.ImportSettings),
        hist.any (fun e => e.isNone) = true →
        TemperatureManager.importData now (some ⟨some hist, st⟩) s =
          (false, { s with temperatureHistory := hist })) := by
  constructor
  · intro now s
    rfl
  · intro now s hist st h
    unfold TemperatureManager.importData TemperatureManager.rawCalcWeightedAverage
    simp [h]

/-- Witness for the amended C5 at the concrete payload `[null]`. -/
theorem import_failure_paths_witness :
    ([(none : Option TemperatureManager.Reading)].any
        (fun e => e.isNone) = true) ∧
    TemperatureManager.importData 0 (some ⟨some [none], none⟩)
        (⟨[some ⟨50, 1, 0, "api", "x"⟩], 50, 47, 15, 5⟩ :
          TemperatureManager.RawState) =
      (false, ⟨[none], 50, 47, 15, 5⟩) :=
  ⟨rfl,
   import_failure_paths.2 0
     ⟨[some ⟨50, 1, 0, "api", "x"⟩], 50, 47, 15, 5⟩ [none] none rfl⟩
